import Mathlib

/-!
# Verification of the BDD-demo application's core logic

A shallow embedding, in Lean 4, of the result-aggregation, data-quality,
JSON-persistence and mock-API logic of the `bdd-demo` Python application,
together with theorems settling the spec's testable properties.

Conventions of the embedding:
* Python numbers are modelled as `ℚ` (exact rationals); `round(x, 2)` is
  modelled as round-half-to-even at two decimal places (`pyRound2`).
* Python dictionaries read from JSON are modelled as structures whose fields
  are `Option`-valued where the source uses `dict.get` with a default.
* Fallible external operations (filesystem, subprocess) are fields of an
  explicit environment record, each returning `Except` to model exceptions.
-/

namespace BddDemo

/-- Predicate `strContains s pat`: models Python's `pat in s` on strings:
substring containment. -/
def strContains (s pat : String) : Bool :=
  decide (pat.toList <:+: s.toList)

/-- Python's `str.lower()`: lowercase each character (character-list
formulation of `String.map Char.toLower`, kept kernel-reducible). -/
def pyToLower (s : String) : String :=
  ⟨s.data.map Char.toLower⟩

/-- Python's `round(x, 2)` modelled on exact rationals: round `x * 100` to
the nearest integer, ties to the even integer (banker's rounding, as Python's
`round` does), then divide by 100. -/
def pyRound2 (q : ℚ) : ℚ :=
  let x : ℚ := q * 100
  let f : ℤ := ⌊x⌋
  let r : ℚ := x - f
  let n : ℤ :=
    if r < 1/2 then f
    else if 1/2 < r then f + 1
    else if f % 2 = 0 then f else f + 1
  (n : ℚ) / 100

/-! ## Cucumber JSON report shapes (input of `BehaveRunner._parse_behave_results`)

Fields read with `dict.get(key, default)` in the source are `Option`-valued
here; the `getD` applied at the use site mirrors the Python default. The
`tags`/`location` payload fields are copied verbatim by the parser and are
modelled as opaque strings. -/

/-- The `result` sub-dict of a step in a Cucumber JSON report. -/
structure CukeStepResult where
  status : Option String := none
  duration : Option ℚ := none
  error_message : Option String := none
deriving Repr, DecidableEq

instance : Inhabited CukeStepResult := ⟨{}⟩

/-- A step entry of a scenario element in a Cucumber JSON report. -/
structure CukeStep where
  keyword : Option String := none
  name : Option String := none
  result : Option CukeStepResult := none
  location : Option String := none
deriving Repr, DecidableEq

/-- A feature element (scenario, background, ...) in a Cucumber JSON report. -/
structure CukeElement where
  type : Option String := none
  name : Option String := none
  steps : Option (List CukeStep) := none
  tags : Option (List String) := none
  location : Option String := none
deriving Repr, DecidableEq

/-- A top-level feature entry in a Cucumber JSON report. -/
structure CukeFeature where
  name : Option String := none
  elements : Option (List CukeElement) := none
deriving Repr, DecidableEq

/-! ## `BehaveRunner._parse_scenario` (behave_runner.py lines 230-287) -/

/-- The per-step record appended to `scenario_info['steps']`. -/
structure StepInfo where
  keyword : String
  name : String
  status : String
  duration : ℚ
  error_message : String
  location : Option String
deriving Repr, DecidableEq

/-- The `scenario_info` dictionary built by `_parse_scenario`. -/
structure ScenarioInfo where
  name : String
  feature_name : String
  status : String
  total_steps : ℕ
  passed_steps : ℕ
  failed_steps : ℕ
  skipped_steps : ℕ
  duration : ℚ
  steps : List StepInfo
  tags : List String
  location : Option String
deriving Repr, DecidableEq

/-- The effective status of a step as computed by `_parse_scenario`:
`step.get('result', {}).get('status', 'unknown')`. -/
def effStatus (step : CukeStep) : String :=
  (step.result.getD {}).status.getD "unknown"

/-- The effective duration of a step as computed by `_parse_scenario`:
`step.get('result', {}).get('duration', 0)`. -/
def effDuration (step : CukeStep) : ℚ :=
  (step.result.getD {}).duration.getD 0

/-- The `step_info` dictionary built inside the step loop of
`_parse_scenario`: `step.get('result', {})`, then `get('status', 'unknown')`,
`get('duration', 0)`, `get('error_message', '')`. -/
def parseStepInfo (step : CukeStep) : StepInfo :=
  { keyword := step.keyword.getD ""
    name := step.name.getD ""
    status := effStatus step
    duration := effDuration step
    error_message := (step.result.getD {}).error_message.getD ""
    location := step.location }

/-- Mutable loop state of the step loop in `_parse_scenario`:
`all_steps_passed`, `total_duration`, and the counter/step-list fields of
`scenario_info` that the loop updates. -/
structure ScenAcc where
  all_passed : Bool
  total_duration : ℚ
  total_steps : ℕ
  passed_steps : ℕ
  failed_steps : ℕ
  skipped_steps : ℕ
  steps : List StepInfo
deriving Repr, DecidableEq

/-- One iteration of the `for step in scenario_element.get('steps', [])` loop
of `_parse_scenario`. -/
def stepUpdate (acc : ScenAcc) (step : CukeStep) : ScenAcc :=
  let step_info := parseStepInfo step
  let acc := { acc with
    steps := acc.steps ++ [step_info]
    total_steps := acc.total_steps + 1
    total_duration := acc.total_duration + step_info.duration }
  if step_info.status = "passed" then
    { acc with passed_steps := acc.passed_steps + 1 }
  else if step_info.status = "failed" then
    { acc with failed_steps := acc.failed_steps + 1, all_passed := false }
  else
    { acc with skipped_steps := acc.skipped_steps + 1, all_passed := false }

/-- Embedding of `BehaveRunner._parse_scenario`: builds the `scenario_info` record for one
scenario element, classifying it `passed` / `failed` / `skipped` from its
steps. -/
def parse_scenario (scenario_element : CukeElement) (feature_name : String) :
    ScenarioInfo :=
  let steps := scenario_element.steps.getD []
  let acc := steps.foldl stepUpdate
    { all_passed := true, total_duration := 0, total_steps := 0
      passed_steps := 0, failed_steps := 0, skipped_steps := 0, steps := [] }
  let status :=
    if acc.all_passed ∧ 0 < acc.total_steps then "passed"
    else if 0 < acc.failed_steps then "failed"
    else "skipped"
  { name := scenario_element.name.getD "Unknown Scenario"
    feature_name := feature_name
    status := status
    total_steps := acc.total_steps
    passed_steps := acc.passed_steps
    failed_steps := acc.failed_steps
    skipped_steps := acc.skipped_steps
    duration := acc.total_duration
    steps := acc.steps
    tags := scenario_element.tags.getD []
    location := scenario_element.location }

/-- Lemma: `stepUpdate` always increments `total_steps` by one. -/
theorem stepUpdate_total_steps (acc : ScenAcc) (s : CukeStep) :
    (stepUpdate acc s).total_steps = acc.total_steps + 1 := by
  simp only [stepUpdate]
  split
  · rfl
  · split <;> rfl

/-- Lemma: `stepUpdate` appends the parsed step record to the step list. -/
theorem stepUpdate_steps (acc : ScenAcc) (s : CukeStep) :
    (stepUpdate acc s).steps = acc.steps ++ [parseStepInfo s] := by
  simp only [stepUpdate]
  split
  · rfl
  · split <;> rfl

/-- Lemma: `stepUpdate` adds the step's effective duration to `total_duration`. -/
theorem stepUpdate_total_duration (acc : ScenAcc) (s : CukeStep) :
    (stepUpdate acc s).total_duration = acc.total_duration + effDuration s := by
  simp only [stepUpdate]
  split
  · rfl
  · split <;> rfl

/-- Lemma: `stepUpdate` increments `passed_steps` exactly on `"passed"` steps. -/
theorem stepUpdate_passed_steps (acc : ScenAcc) (s : CukeStep) :
    (stepUpdate acc s).passed_steps =
      acc.passed_steps + if effStatus s = "passed" then 1 else 0 := by
  simp only [stepUpdate, parseStepInfo]
  split
  · next h => simp [h]
  · next h =>
      split <;> simp [h]

/-- Lemma: `stepUpdate` increments `failed_steps` exactly on `"failed"` steps. -/
theorem stepUpdate_failed_steps (acc : ScenAcc) (s : CukeStep) :
    (stepUpdate acc s).failed_steps =
      acc.failed_steps + if effStatus s = "failed" then 1 else 0 := by
  simp only [stepUpdate, parseStepInfo]
  split
  · next h => simp [h]
  · next h =>
      split
      · next h2 => simp [h2]
      · next h2 => simp [h2]

/-- Lemma: `stepUpdate` increments `skipped_steps` exactly on steps that are neither
`"passed"` nor `"failed"`. -/
theorem stepUpdate_skipped_steps (acc : ScenAcc) (s : CukeStep) :
    (stepUpdate acc s).skipped_steps =
      acc.skipped_steps +
        if effStatus s ≠ "passed" ∧ effStatus s ≠ "failed" then 1 else 0 := by
  simp only [stepUpdate, parseStepInfo]
  split
  · next h => simp [h]
  · next h =>
      split
      · next h2 => simp [h, h2]
      · next h2 => simp [h, h2]

/-- Lemma: `stepUpdate` conjoins "this step passed" onto `all_passed`. -/
theorem stepUpdate_all_passed (acc : ScenAcc) (s : CukeStep) :
    (stepUpdate acc s).all_passed =
      (acc.all_passed && decide (effStatus s = "passed")) := by
  simp only [stepUpdate, parseStepInfo]
  split
  · next h => simp [h]
  · next h =>
      split <;> simp [h]

/-- Invariant of the step loop of `_parse_scenario`: after folding
`stepUpdate` over the step list, every accumulator field is the initial value
combined with the corresponding aggregate over the list. -/
theorem stepLoop_inv (steps : List CukeStep) (acc : ScenAcc) :
    (steps.foldl stepUpdate acc).total_steps = acc.total_steps + steps.length ∧
    (steps.foldl stepUpdate acc).passed_steps =
      acc.passed_steps + steps.countP (fun s => decide (effStatus s = "passed")) ∧
    (steps.foldl stepUpdate acc).failed_steps =
      acc.failed_steps + steps.countP (fun s => decide (effStatus s = "failed")) ∧
    (steps.foldl stepUpdate acc).skipped_steps =
      acc.skipped_steps +
        steps.countP (fun s => decide (effStatus s ≠ "passed" ∧ effStatus s ≠ "failed")) ∧
    (steps.foldl stepUpdate acc).total_duration =
      acc.total_duration + (steps.map effDuration).sum ∧
    (steps.foldl stepUpdate acc).all_passed =
      (acc.all_passed && steps.all (fun s => decide (effStatus s = "passed"))) ∧
    (steps.foldl stepUpdate acc).steps = acc.steps ++ steps.map parseStepInfo := by
  induction steps generalizing acc with
  | nil => simp
  | cons s rest ih =>
    obtain ⟨h1, h2, h3, h4, h5, h6, h7⟩ := ih (stepUpdate acc s)
    simp only [List.foldl_cons, h1, h2, h3, h4, h5, h6, h7,
      stepUpdate_total_steps, stepUpdate_passed_steps, stepUpdate_failed_steps,
      stepUpdate_skipped_steps, stepUpdate_total_duration, stepUpdate_all_passed,
      stepUpdate_steps, List.countP_cons, List.length_cons, List.all_cons,
      List.map_cons, List.sum_cons, decide_eq_true_eq]
    refine ⟨by omega, by omega, by omega, by omega, by ring, ?_, by simp⟩
    cases acc.all_passed <;> simp [Bool.and_assoc]

/-- C1: a parsed scenario's status is `"passed"` exactly when it has at least
one step and every step's status is `"passed"`; it is `"failed"` when some
step's status is `"failed"`; otherwise it is `"skipped"`. -/
theorem scenario_status_classification (el : CukeElement) (fname : String) :
    (parse_scenario el fname).status =
      (if (el.steps.getD []) ≠ [] ∧
          (∀ s ∈ el.steps.getD [], effStatus s = "passed") then "passed"
       else if ∃ s ∈ el.steps.getD [], effStatus s = "failed" then "failed"
       else "skipped") := by
  obtain ⟨h1, h2, h3, h4, h5, h6, h7⟩ := stepLoop_inv (el.steps.getD [])
    { all_passed := true, total_duration := 0, total_steps := 0
      passed_steps := 0, failed_steps := 0, skipped_steps := 0, steps := [] }
  simp only [parse_scenario, h1, h3, h6]
  by_cases hall : ∀ s ∈ el.steps.getD [], effStatus s = "passed"
  · by_cases hne : el.steps.getD [] = []
    · simp [hne]
    · have hlen : 0 < (el.steps.getD []).length := List.length_pos.mpr hne
      have hex : ¬ ∃ s ∈ el.steps.getD [], effStatus s = "failed" := by
        rintro ⟨s, hs, hfail⟩
        simp [hall s hs] at hfail
      simp [hall, hne, hlen, List.all_eq_true, hex]
  · have hnall : ¬ ((el.steps.getD []) ≠ [] ∧
        ∀ s ∈ el.steps.getD [], effStatus s = "passed") := fun h => hall h.2
    have hallb : ¬ (el.steps.getD []).all (fun s => decide (effStatus s = "passed")) = true := by
      simpa [List.all_eq_true] using hall
    by_cases hex : ∃ s ∈ el.steps.getD [], effStatus s = "failed"
    · have hcnt : 0 < (el.steps.getD []).countP (fun s => decide (effStatus s = "failed")) := by
        obtain ⟨s, hs, hfail⟩ := hex
        exact List.countP_pos_iff.mpr ⟨s, hs, by simp [hfail]⟩
      simp [hnall, hallb, hex, hcnt]
    · have hcnt : ¬ 0 < (el.steps.getD []).countP (fun s => decide (effStatus s = "failed")) := by
        intro h
        obtain ⟨s, hs, hfail⟩ := List.countP_pos_iff.mp h
        exact hex ⟨s, hs, by simpa using hfail⟩
      simp [hnall, hallb, hex, hcnt]

/-- Partition of the steps of a scenario by effective status: the `"passed"`,
`"failed"` and neither-`"passed"`-nor-`"failed"` counts sum to the length. -/
theorem status_count_partition (steps : List CukeStep) :
    steps.countP (fun s => decide (effStatus s = "passed")) +
    steps.countP (fun s => decide (effStatus s = "failed")) +
    steps.countP (fun s => decide (effStatus s ≠ "passed" ∧ effStatus s ≠ "failed")) =
      steps.length := by
  induction steps with
  | nil => simp
  | cons s rest ih =>
    simp only [List.countP_cons, List.length_cons]
    by_cases hp : effStatus s = "passed"
    · rw [if_pos (by simp [hp]), if_neg (by simp [hp]), if_neg (by simp [hp])]
      omega
    · by_cases hf : effStatus s = "failed"
      · rw [if_neg (by simp [hp]), if_pos (by simp [hf]), if_neg (by simp [hf])]
        omega
      · rw [if_neg (by simp [hp]), if_neg (by simp [hf]),
          if_pos (by simp [hp, hf])]
        omega

/-- C8: for every parsed scenario, the per-status step counters are the counts
of steps with that effective status (everything neither passed nor failed is
skipped), they sum to `total_steps`, which is the number of step entries, and
the scenario's duration is the sum of its steps' durations. -/
theorem scenario_step_counter_invariant (el : CukeElement) (fname : String) :
    (parse_scenario el fname).passed_steps +
      (parse_scenario el fname).failed_steps +
      (parse_scenario el fname).skipped_steps = (parse_scenario el fname).total_steps ∧
    (parse_scenario el fname).total_steps = (el.steps.getD []).length ∧
    (parse_scenario el fname).passed_steps =
      (el.steps.getD []).countP (fun s => decide (effStatus s = "passed")) ∧
    (parse_scenario el fname).failed_steps =
      (el.steps.getD []).countP (fun s => decide (effStatus s = "failed")) ∧
    (parse_scenario el fname).skipped_steps =
      (el.steps.getD []).countP
        (fun s => decide (effStatus s ≠ "passed" ∧ effStatus s ≠ "failed")) ∧
    (parse_scenario el fname).duration = ((el.steps.getD []).map effDuration).sum := by
  obtain ⟨h1, h2, h3, h4, h5, h6, h7⟩ := stepLoop_inv (el.steps.getD [])
    { all_passed := true, total_duration := 0, total_steps := 0
      passed_steps := 0, failed_steps := 0, skipped_steps := 0, steps := [] }
  have hpart := status_count_partition (el.steps.getD [])
  simp only [parse_scenario, h1, h2, h3, h4, h5]
  refine ⟨by omega, by omega, by omega, by omega, by omega, by simp⟩

/-! ## Statistics aggregation in `BehaveRunner._parse_behave_results`
(behave_runner.py lines 161-212) -/

/-- The `statistics` sub-dictionary of the execution result. `success_rate`
is `Option`-valued because the key is only added after the scenario loop (and
only when the Cucumber JSON file exists and parses). -/
structure Statistics where
  total_scenarios : ℕ := 0
  passed_scenarios : ℕ := 0
  failed_scenarios : ℕ := 0
  skipped_scenarios : ℕ := 0
  total_steps : ℕ := 0
  passed_steps : ℕ := 0
  failed_steps : ℕ := 0
  skipped_steps : ℕ := 0
  success_rate : Option ℚ := none
deriving Repr, DecidableEq

/-- The statistics update performed for one parsed scenario inside the
`for element in feature.get('elements', [])` loop (lines 192-204). -/
def updateStats (stats : Statistics) (si : ScenarioInfo) : Statistics :=
  let stats := { stats with total_scenarios := stats.total_scenarios + 1 }
  let stats :=
    if si.status = "passed" then
      { stats with passed_scenarios := stats.passed_scenarios + 1 }
    else if si.status = "failed" then
      { stats with failed_scenarios := stats.failed_scenarios + 1 }
    else
      { stats with skipped_scenarios := stats.skipped_scenarios + 1 }
  { stats with
    total_steps := stats.total_steps + si.total_steps
    passed_steps := stats.passed_steps + si.passed_steps
    failed_steps := stats.failed_steps + si.failed_steps
    skipped_steps := stats.skipped_steps + si.skipped_steps }

/-- One iteration of the element loop: elements whose `type` is not
`'scenario'` are skipped entirely. -/
def elementStep (feature_name : String)
    (acc : List ScenarioInfo × Statistics) (element : CukeElement) :
    List ScenarioInfo × Statistics :=
  if element.type = some "scenario" then
    let scenario_info := parse_scenario element feature_name
    (acc.1 ++ [scenario_info], updateStats acc.2 scenario_info)
  else acc

/-- One iteration of the `for feature in cucumber_data` loop. -/
def featureStep (acc : List ScenarioInfo × Statistics) (feature : CukeFeature) :
    List ScenarioInfo × Statistics :=
  (feature.elements.getD []).foldl
    (elementStep (feature.name.getD "Unknown Feature")) acc

/-- The scenario/statistics aggregation of `_parse_behave_results` over
parsed Cucumber JSON data, including the final `success_rate` computation
(lines 183-212). -/
def aggregateCucumber (cucumber_data : List CukeFeature) :
    List ScenarioInfo × Statistics :=
  let p := cucumber_data.foldl featureStep ([], {})
  let success_rate : ℚ :=
    if 0 < p.2.total_scenarios then
      pyRound2 ((p.2.passed_scenarios : ℚ) / (p.2.total_scenarios : ℚ) * 100)
    else 0
  (p.1, { p.2 with success_rate := some success_rate })

/-- Lemma: `updateStats` increments `total_scenarios` by one. -/
theorem updateStats_total (stats : Statistics) (si : ScenarioInfo) :
    (updateStats stats si).total_scenarios = stats.total_scenarios + 1 := by
  simp only [updateStats]
  split
  · rfl
  · split <;> rfl

/-- Lemma: `updateStats` increments `passed_scenarios` exactly on `"passed"`. -/
theorem updateStats_passed (stats : Statistics) (si : ScenarioInfo) :
    (updateStats stats si).passed_scenarios =
      stats.passed_scenarios + if si.status = "passed" then 1 else 0 := by
  simp only [updateStats]
  split
  · next h => simp [h]
  · next h => split <;> simp [h]

/-- Lemma: `updateStats` increments `failed_scenarios` exactly on `"failed"`. -/
theorem updateStats_failed (stats : Statistics) (si : ScenarioInfo) :
    (updateStats stats si).failed_scenarios =
      stats.failed_scenarios + if si.status = "failed" then 1 else 0 := by
  simp only [updateStats]
  split
  · next h => simp [h]
  · next h =>
      split
      · next h2 => simp [h2]
      · next h2 => simp [h2]

/-- Lemma: `updateStats` increments `skipped_scenarios` exactly on statuses that are
neither `"passed"` nor `"failed"`. -/
theorem updateStats_skipped (stats : Statistics) (si : ScenarioInfo) :
    (updateStats stats si).skipped_scenarios =
      stats.skipped_scenarios +
        if si.status ≠ "passed" ∧ si.status ≠ "failed" then 1 else 0 := by
  simp only [updateStats]
  split
  · next h => simp [h]
  · next h =>
      split
      · next h2 => simp [h, h2]
      · next h2 => simp [h, h2]

/-- Lemma: `updateStats` leaves `success_rate` untouched. -/
theorem updateStats_success_rate (stats : Statistics) (si : ScenarioInfo) :
    (updateStats stats si).success_rate = stats.success_rate := by
  simp only [updateStats]
  split
  · rfl
  · split <;> rfl

/-- Relation maintained by the scenario loop between the accumulated scenario
list and the scenario-level statistics counters. -/
def StatsInv (scens : List ScenarioInfo) (stats : Statistics) : Prop :=
  stats.total_scenarios = scens.length ∧
  stats.passed_scenarios = scens.countP (fun si => decide (si.status = "passed")) ∧
  stats.failed_scenarios = scens.countP (fun si => decide (si.status = "failed")) ∧
  stats.skipped_scenarios =
    scens.countP (fun si => decide (si.status ≠ "passed" ∧ si.status ≠ "failed"))

/-- Lemma: `updateStats` preserves `StatsInv`, appending the scenario. -/
theorem statsInv_update {scens : List ScenarioInfo} {stats : Statistics}
    (si : ScenarioInfo) (h : StatsInv scens stats) :
    StatsInv (scens ++ [si]) (updateStats stats si) := by
  obtain ⟨h1, h2, h3, h4⟩ := h
  refine ⟨?_, ?_, ?_, ?_⟩
  · simp [updateStats_total, h1]
  · simp only [updateStats_passed, h2, List.countP_append, List.countP_cons,
      List.countP_nil, decide_eq_true_eq]
    omega
  · simp only [updateStats_failed, h3, List.countP_append, List.countP_cons,
      List.countP_nil, decide_eq_true_eq]
    omega
  · simp only [updateStats_skipped, h4, List.countP_append, List.countP_cons,
      List.countP_nil, decide_eq_true_eq]
    omega

/-- The element loop preserves `StatsInv`. -/
theorem statsInv_elements (fname : String) (els : List CukeElement)
    (acc : List ScenarioInfo × Statistics) (h : StatsInv acc.1 acc.2) :
    StatsInv (els.foldl (elementStep fname) acc).1
      (els.foldl (elementStep fname) acc).2 := by
  induction els generalizing acc with
  | nil => exact h
  | cons el rest ih =>
    refine ih _ ?_
    simp only [elementStep]
    split
    · exact statsInv_update _ h
    · exact h

/-- The feature loop preserves `StatsInv`. -/
theorem statsInv_features (data : List CukeFeature)
    (acc : List ScenarioInfo × Statistics) (h : StatsInv acc.1 acc.2) :
    StatsInv (data.foldl featureStep acc).1 (data.foldl featureStep acc).2 := by
  induction data generalizing acc with
  | nil => exact h
  | cons f rest ih => exact ih _ (statsInv_elements _ _ _ h)

/-- The element loop appends exactly the parsed scenario-typed elements. -/
theorem elements_fold_scens (fname : String) (els : List CukeElement)
    (acc : List ScenarioInfo × Statistics) :
    (els.foldl (elementStep fname) acc).1 =
      acc.1 ++ (els.filter (fun el => decide (el.type = some "scenario"))).map
        (fun el => parse_scenario el fname) := by
  induction els generalizing acc with
  | nil => simp
  | cons el rest ih =>
    simp only [List.foldl_cons, List.filter_cons]
    by_cases he : el.type = some "scenario"
    · rw [ih]
      simp [elementStep, he]
    · rw [ih]
      simp [elementStep, he]

/-- The feature loop appends exactly the parsed scenarios of each feature. -/
theorem features_fold_scens (data : List CukeFeature)
    (acc : List ScenarioInfo × Statistics) :
    (data.foldl featureStep acc).1 =
      acc.1 ++ data.flatMap (fun f =>
        ((f.elements.getD []).filter
          (fun el => decide (el.type = some "scenario"))).map
          (fun el => parse_scenario el (f.name.getD "Unknown Feature"))) := by
  induction data generalizing acc with
  | nil => simp
  | cons f rest ih =>
    simp only [List.foldl_cons, List.flatMap_cons]
    rw [featureStep, ih, elements_fold_scens]
    simp

/-- Partition of scenarios by status: `"passed"`, `"failed"` and
neither-`"passed"`-nor-`"failed"` counts sum to the length. -/
theorem scenario_count_partition (scens : List ScenarioInfo) :
    scens.countP (fun si => decide (si.status = "passed")) +
    scens.countP (fun si => decide (si.status = "failed")) +
    scens.countP (fun si => decide (si.status ≠ "passed" ∧ si.status ≠ "failed")) =
      scens.length := by
  induction scens with
  | nil => simp
  | cons si rest ih =>
    simp only [List.countP_cons, List.length_cons]
    by_cases hp : si.status = "passed"
    · rw [if_pos (by simp [hp]), if_neg (by simp [hp]), if_neg (by simp [hp])]
      omega
    · by_cases hf : si.status = "failed"
      · rw [if_neg (by simp [hp]), if_pos (by simp [hf]), if_neg (by simp [hf])]
        omega
      · rw [if_neg (by simp [hp]), if_neg (by simp [hf]),
          if_pos (by simp [hp, hf])]
        omega

/-- C3: after aggregating a parsed Cucumber report, each scenario counter of
the statistics equals the number of parsed scenarios with the corresponding
classification (anything neither passed nor failed counted skipped), the
counters sum to `total_scenarios`, `total_scenarios` is the number of parsed
scenarios, and the parsed scenarios are exactly the scenario-typed elements
run through `_parse_scenario`. -/
theorem aggregate_scenario_count_invariant (cucumber_data : List CukeFeature) :
    (aggregateCucumber cucumber_data).2.passed_scenarios =
      (aggregateCucumber cucumber_data).1.countP
        (fun si => decide (si.status = "passed")) ∧
    (aggregateCucumber cucumber_data).2.failed_scenarios =
      (aggregateCucumber cucumber_data).1.countP
        (fun si => decide (si.status = "failed")) ∧
    (aggregateCucumber cucumber_data).2.skipped_scenarios =
      (aggregateCucumber cucumber_data).1.countP
        (fun si => decide (si.status ≠ "passed" ∧ si.status ≠ "failed")) ∧
    (aggregateCucumber cucumber_data).2.passed_scenarios +
      (aggregateCucumber cucumber_data).2.failed_scenarios +
      (aggregateCucumber cucumber_data).2.skipped_scenarios =
      (aggregateCucumber cucumber_data).2.total_scenarios ∧
    (aggregateCucumber cucumber_data).2.total_scenarios =
      (aggregateCucumber cucumber_data).1.length ∧
    (aggregateCucumber cucumber_data).1 =
      cucumber_data.flatMap (fun f =>
        ((f.elements.getD []).filter
          (fun el => decide (el.type = some "scenario"))).map
          (fun el => parse_scenario el (f.name.getD "Unknown Feature"))) := by
  have hinv := statsInv_features cucumber_data ([], {}) ⟨rfl, rfl, rfl, rfl⟩
  obtain ⟨h1, h2, h3, h4⟩ := hinv
  have hpart := scenario_count_partition (cucumber_data.foldl featureStep ([], {})).1
  have hscens := features_fold_scens cucumber_data ([], {})
  simp only [List.nil_append] at hscens
  rw [hscens] at hpart h1 h2 h3 h4
  refine ⟨?_, ?_, ?_, ?_, ?_, ?_⟩ <;>
    · simp only [aggregateCucumber, h1, h2, h3, h4, hscens]
      try omega

/-- C2: the aggregated statistics' `success_rate` is
`round(passed_scenarios / total_scenarios * 100, 2)` when `total_scenarios`
is positive, and `0` otherwise. -/
theorem aggregate_success_rate (cucumber_data : List CukeFeature) :
    (aggregateCucumber cucumber_data).2.success_rate =
      some (if 0 < (aggregateCucumber cucumber_data).2.total_scenarios then
        pyRound2 (((aggregateCucumber cucumber_data).2.passed_scenarios : ℚ) /
          ((aggregateCucumber cucumber_data).2.total_scenarios : ℚ) * 100)
      else 0) := by
  simp only [aggregateCucumber]

/-! ## `BehaveRunner.run_all_features` / `run_specific_feature`
(behave_runner.py lines 24-143), with external effects as an environment

Exceptions of external operations are modelled by `Except`/outcome values;
the subprocess-invocation count is threaded explicitly so that "no subprocess
invocation" is expressible. `os.path.join` is modelled as separator
concatenation (no claim depends on join edge cases). `save_json_file` has its
own internal exception guard and returns a `bool`, so it cannot raise and is
not part of the environment. -/

/-- Result of `subprocess.run(...)` when the call itself succeeds. -/
structure SubprocessResult where
  returncode : ℤ
  stdout : String
  stderr : String
deriving Repr, DecidableEq

/-- Outcome of opening and `json.load`-ing the Cucumber report file:
success, a `json.JSONDecodeError`, or any other exception (e.g. an I/O
error from `open`). -/
inductive ReadOutcome where
  | ok (data : List CukeFeature)
  | decodeError (msg : String)
  | ioError (msg : String)
deriving Repr, DecidableEq

/-- Environment of a `BehaveRunner` call: configuration directories, the
clock, and the fallible external operations. -/
structure RunnerEnv where
  features_dir : String
  reports_dir : String
  timestamp : String
  now_iso : String
  duration : String
  path_exists : String → Bool
  subprocess_run : List String → Except String SubprocessResult
  read_cucumber : String → ReadOutcome
  makedirs : String → Except String Unit

/-- Model of `os.path.join` modelled as separator concatenation. -/
def joinPath (a b : String) : String := a ++ "/" ++ b

/-- A Python result dictionary of the runner. Each field is `Option`-valued:
`none` models the key being absent from the dictionary. -/
structure RunResult where
  success : Option Bool := none
  error : Option String := none
  return_code : Option ℤ := none
  stdout : Option String := none
  stderr : Option String := none
  execution_time : Option String := none
  timestamp : Option String := none
  cucumber_json_file : Option String := none
  junit_xml_file : Option (Option String) := none
  feature_file : Option (Option String) := none
  scenarios : Option (List ScenarioInfo) := none
  statistics : Option Statistics := none
  cucumber_data : Option (List CukeFeature) := none
  json_parse_error : Option String := none
deriving Repr, DecidableEq

/-- Embedding of `BehaveRunner._parse_behave_results` (lines 145-228). The only fallible
operation inside its `try` block is reading the report file; a
`JSONDecodeError` is recorded as the `json_parse_error` field, any other
exception hits the outer handler (lines 220-228). -/
def parse_behave_results (env : RunnerEnv) (subprocess_result : SubprocessResult)
    (cucumber_json_file : String) (junit_xml_file : Option String)
    (timestamp : String) (feature_file : Option String) : RunResult :=
  let base : RunResult :=
    { success := some (decide (subprocess_result.returncode = 0))
      return_code := some subprocess_result.returncode
      stdout := some subprocess_result.stdout
      stderr := some subprocess_result.stderr
      execution_time := some env.duration
      timestamp := some timestamp
      cucumber_json_file := some cucumber_json_file
      junit_xml_file := some junit_xml_file
      feature_file := some feature_file
      scenarios := some []
      statistics := some {} }
  if env.path_exists cucumber_json_file then
    match env.read_cucumber cucumber_json_file with
    | .ok data =>
        let agg := aggregateCucumber data
        { base with
          cucumber_data := some data
          scenarios := some agg.1
          statistics := some agg.2 }
    | .decodeError e =>
        { base with json_parse_error := some e }
    | .ioError e =>
        { success := some false
          error := some ("Result parsing error: " ++ e)
          return_code := some subprocess_result.returncode
          execution_time := some env.duration
          timestamp := some timestamp }
  else base

/-- The `behave` command list built by `run_all_features` (lines 40-50). -/
def runAllCmd (env : RunnerEnv) : List String :=
  let cucumber_json_file :=
    joinPath env.reports_dir ("cucumber_report_" ++ env.timestamp ++ ".json")
  let junit_xml_file :=
    joinPath env.reports_dir ("junit_report_" ++ env.timestamp ++ ".xml")
  ["behave", env.features_dir,
   "--format=json", "--outfile=" ++ cucumber_json_file,
   "--format=junit", "--outfile=" ++ junit_xml_file,
   "--format=pretty", "--no-capture", "--no-capture-stderr"]

/-- The `behave` command list built by `run_specific_feature`
(lines 107-114). -/
def runSpecificCmd (env : RunnerEnv) (feature_file : String) : List String :=
  let feature_path := joinPath env.features_dir feature_file
  let cucumber_json_file := joinPath env.reports_dir
    ("cucumber_report_" ++ feature_file ++ "_" ++ env.timestamp ++ ".json")
  ["behave", feature_path,
   "--format=json", "--outfile=" ++ cucumber_json_file,
   "--format=pretty", "--no-capture"]

/-- The dictionary returned by the broad exception handler of
`run_all_features` (lines 77-84). The exception is raised before
`metadata.mark_complete()`, so `get_duration()` yields `"In progress..."`. -/
def runAllFailure (env : RunnerEnv) (e : String) : RunResult :=
  { success := some false
    error := some e
    execution_time := some "In progress..."
    timestamp := some env.now_iso }

/-- The dictionary returned by the broad exception handler of
`run_specific_feature` (lines 135-143). -/
def runSpecificFailure (env : RunnerEnv) (feature_file e : String) : RunResult :=
  { success := some false
    error := some e
    feature_file := some (some feature_file)
    execution_time := some "In progress..."
    timestamp := some env.now_iso }

/-- Embedding of `BehaveRunner.run_all_features` (lines 24-84), returning the result
dictionary and the number of `subprocess.run` invocations performed. -/
def run_all_features (env : RunnerEnv) : RunResult × ℕ :=
  match env.makedirs env.reports_dir with
  | .error e => (runAllFailure env e, 0)
  | .ok _ =>
    let cucumber_json_file :=
      joinPath env.reports_dir ("cucumber_report_" ++ env.timestamp ++ ".json")
    let junit_xml_file :=
      joinPath env.reports_dir ("junit_report_" ++ env.timestamp ++ ".xml")
    match env.subprocess_run (runAllCmd env) with
    | .error e => (runAllFailure env e, 1)
    | .ok result =>
        (parse_behave_results env result cucumber_json_file
          (some junit_xml_file) env.timestamp none, 1)

/-- Embedding of `BehaveRunner.run_specific_feature` (lines 86-143), returning the result
dictionary and the number of `subprocess.run` invocations performed. -/
def run_specific_feature (env : RunnerEnv) (feature_file : String) :
    RunResult × ℕ :=
  let feature_path := joinPath env.features_dir feature_file
  if env.path_exists feature_path then
    let cucumber_json_file := joinPath env.reports_dir
      ("cucumber_report_" ++ feature_file ++ "_" ++ env.timestamp ++ ".json")
    match env.subprocess_run (runSpecificCmd env feature_file) with
    | .error e => (runSpecificFailure env feature_file e, 1)
    | .ok result =>
        (parse_behave_results env result cucumber_json_file none
          env.timestamp (some feature_file), 1)
  else
    ({ success := some false
       error := some ("Feature file not found: " ++ feature_path)
       feature_file := some (some feature_file) }, 0)

/-- C5: exceptions of the external operations of `run_all_features` and
`run_specific_feature` (directory creation, subprocess invocation) are never
propagated: the operation returns a dictionary with `success = false`, the
error message, an `execution_time` and a `timestamp`. -/
theorem orchestration_exceptions_caught (env : RunnerEnv) (ff e : String) :
    (env.makedirs env.reports_dir = .error e →
      (run_all_features env).1.success = some false ∧
      (run_all_features env).1.error = some e ∧
      ((run_all_features env).1.execution_time).isSome = true ∧
      ((run_all_features env).1.timestamp).isSome = true) ∧
    (env.makedirs env.reports_dir = .ok () →
      env.subprocess_run (runAllCmd env) = .error e →
      (run_all_features env).1.success = some false ∧
      (run_all_features env).1.error = some e ∧
      ((run_all_features env).1.execution_time).isSome = true ∧
      ((run_all_features env).1.timestamp).isSome = true) ∧
    (env.path_exists (joinPath env.features_dir ff) = true →
      env.subprocess_run (runSpecificCmd env ff) = .error e →
      (run_specific_feature env ff).1.success = some false ∧
      (run_specific_feature env ff).1.error = some e ∧
      ((run_specific_feature env ff).1.execution_time).isSome = true ∧
      ((run_specific_feature env ff).1.timestamp).isSome = true) := by
  refine ⟨fun h => ?_, fun h1 h2 => ?_, fun h1 h2 => ?_⟩
  · simp [run_all_features, h, runAllFailure]
  · simp [run_all_features, h1, h2, runAllFailure]
  · simp [run_specific_feature, h1, h2, runSpecificFailure]

/-- Concrete environment whose directory creation fails. -/
def envMakedirsFails : RunnerEnv :=
  { features_dir := "features", reports_dir := "reports", timestamp := "t0"
    now_iso := "2024-01-01T00:00:00", duration := "1s"
    path_exists := fun _ => true
    subprocess_run := fun _ => .error "behave: command not found"
    read_cucumber := fun _ => .ioError "io"
    makedirs := fun _ => .error "permission denied" }

/-- Concrete environment whose subprocess invocation fails. -/
def envSubprocessFails : RunnerEnv :=
  { features_dir := "features", reports_dir := "reports", timestamp := "t0"
    now_iso := "2024-01-01T00:00:00", duration := "1s"
    path_exists := fun _ => true
    subprocess_run := fun _ => .error "behave: command not found"
    read_cucumber := fun _ => .ioError "io"
    makedirs := fun _ => .ok () }

/-- Witness for C5: concrete runs where directory creation, the all-features
subprocess and the specific-feature subprocess raise, each yielding the
structured failure dictionary. -/
theorem orchestration_exceptions_caught_witness :
    ((run_all_features envMakedirsFails).1.success = some false ∧
      (run_all_features envMakedirsFails).1.error = some "permission denied") ∧
    ((run_all_features envSubprocessFails).1.success = some false ∧
      (run_all_features envSubprocessFails).1.error =
        some "behave: command not found") ∧
    ((run_specific_feature envSubprocessFails "login.feature").1.success =
        some false ∧
      (run_specific_feature envSubprocessFails "login.feature").1.error =
        some "behave: command not found") :=
  ⟨⟨((orchestration_exceptions_caught envMakedirsFails "x"
        "permission denied").1 rfl).1,
    ((orchestration_exceptions_caught envMakedirsFails "x"
        "permission denied").1 rfl).2.1⟩,
   ⟨((orchestration_exceptions_caught envSubprocessFails "x"
        "behave: command not found").2.1 rfl rfl).1,
    ((orchestration_exceptions_caught envSubprocessFails "x"
        "behave: command not found").2.1 rfl rfl).2.1⟩,
   ⟨((orchestration_exceptions_caught envSubprocessFails "login.feature"
        "behave: command not found").2.2 rfl rfl).1,
    ((orchestration_exceptions_caught envSubprocessFails "login.feature"
        "behave: command not found").2.2 rfl rfl).2.1⟩⟩

/-- C6: when the resolved feature path does not exist,
`run_specific_feature` returns the structured failure naming the missing path
and the feature file and performs no subprocess invocation; the subprocess is
invoked only when the path exists. -/
theorem run_specific_feature_missing_path (env : RunnerEnv) (ff : String) :
    (env.path_exists (joinPath env.features_dir ff) = false →
      (run_specific_feature env ff).1 =
        { success := some false
          error := some ("Feature file not found: " ++
            joinPath env.features_dir ff)
          feature_file := some (some ff) } ∧
      (run_specific_feature env ff).2 = 0) ∧
    (0 < (run_specific_feature env ff).2 →
      env.path_exists (joinPath env.features_dir ff) = true) := by
  constructor
  · intro h
    simp [run_specific_feature, h]
  · intro h
    by_cases hp : env.path_exists (joinPath env.features_dir ff) = true
    · exact hp
    · exfalso
      simp only [Bool.not_eq_true] at hp
      simp [run_specific_feature, hp] at h

/-- Concrete environment where no path exists. -/
def envNoPath : RunnerEnv :=
  { features_dir := "features", reports_dir := "reports", timestamp := "t0"
    now_iso := "2024-01-01T00:00:00", duration := "1s"
    path_exists := fun _ => false
    subprocess_run := fun _ => .error "unreachable"
    read_cucumber := fun _ => .ioError "io"
    makedirs := fun _ => .ok () }

/-- Witness for C6: with a missing `login.feature`, the failure names the
path, and the subprocess count is zero; with an existing path, a positive
subprocess count entails path existence. -/
theorem run_specific_feature_missing_path_witness :
    ((run_specific_feature envNoPath "login.feature").1 =
      { success := some false
        error := some "Feature file not found: features/login.feature"
        feature_file := some (some "login.feature") } ∧
     (run_specific_feature envNoPath "login.feature").2 = 0) ∧
    envSubprocessFails.path_exists
      (joinPath envSubprocessFails.features_dir "login.feature") = true :=
  ⟨(run_specific_feature_missing_path envNoPath "login.feature").1 rfl,
   (run_specific_feature_missing_path envSubprocessFails "login.feature").2
     (by decide)⟩

/-! ## `DataQualityChecker` (ge_checks.py lines 50-207)

A DataFrame column is modelled by its name and typed data; a `none` entry
models a pandas null (`NaN`). `Series.min()`/`max()` skip nulls and return
`NaN` on an empty selection; since `NaN >= 0` and `NaN <= 1000000` are both
false in Python, the `none` case of `min?`/`max?` yields `false` below. -/

/-- The null count of a column: `col_data.isnull().sum()`. -/
def colNullCount {α : Type} (vals : List (Option α)) : ℕ :=
  vals.countP (fun v => v.isNone)

/-- The success flag and `details` booleans of
`DataQualityChecker._validate_numeric_column` (lines 108-151), together with
the observed values (`none` models `NaN`). -/
structure NumericCheck where
  success : Bool
  null_count : ℕ
  has_nulls : Bool
  all_positive : Bool
  reasonable_max : Bool
  observed_min : Option ℚ
  observed_max : Option ℚ
deriving Repr, DecidableEq

/-- Embedding of `DataQualityChecker._validate_numeric_column`: null check always; a
minimum-≥-0 check when the lowercased name contains `'revenue'` or
`'amount'`; a maximum-≤-1,000,000 check when it contains `'revenue'`. -/
def validate_numeric_column (column : String) (vals : List (Option ℚ)) :
    NumericCheck :=
  let null_count := colNullCount vals
  let has_nulls := decide (0 < null_count)
  let nonnull := vals.filterMap id
  let all_positive :=
    if strContains (pyToLower column) "revenue" || strContains (pyToLower column) "amount" then
      match nonnull.min? with
      | some m => decide (0 ≤ m)
      | none => false
    else true
  let reasonable_max :=
    if strContains (pyToLower column) "revenue" then
      match nonnull.max? with
      | some m => decide (m ≤ 1000000)
      | none => false
    else true
  { success := !has_nulls && all_positive && reasonable_max
    null_count := null_count
    has_nulls := has_nulls
    all_positive := all_positive
    reasonable_max := reasonable_max
    observed_min := nonnull.min?
    observed_max := nonnull.max? }

/-- The success flag and observed values of
`DataQualityChecker._validate_string_column` (lines 160-207). `astype(str)`
renders a missing value as the 3-character string `'nan'`. -/
structure StringCheck where
  success : Bool
  null_count : ℕ
  empty_count : ℕ
  max_length : ℕ
deriving Repr, DecidableEq

/-- Embedding of `DataQualityChecker._validate_string_column`: null check, empty-string
check (`NaN == ''` is false, so only present empty strings count), and a
max-string-length-≤-255 check on the stringified column when nonempty. -/
def validate_string_column (column : String) (vals : List (Option String)) :
    StringCheck :=
  let null_count := colNullCount vals
  let has_nulls := decide (0 < null_count)
  let empty_count := vals.countP (fun v => v = some "")
  let has_empty := decide (0 < empty_count)
  let max_length : ℕ :=
    if vals.isEmpty then 0
    else (vals.map (fun v => match v with
      | some s => s.length
      | none => 3)).foldr max 0
  let reasonable_length :=
    if vals.isEmpty then true else decide (max_length ≤ 255)
  { success := !has_nulls && !has_empty && reasonable_length
    null_count := null_count
    empty_count := empty_count
    max_length := max_length }

/-- Typed data of one DataFrame column: `int64`/`float64` dtypes, `object`
(string) dtype, or any other dtype (e.g. `bool`), which the column loop of
`validate_api_data` skips. -/
inductive ColumnData where
  | numeric (vals : List (Option ℚ))
  | strings (vals : List (Option String))
  | other
deriving Repr, DecidableEq

/-- A DataFrame column as iterated by `validate_api_data`. -/
structure Column where
  name : String
  data : ColumnData
deriving Repr, DecidableEq

/-- A per-column entry of the `results` list of `validate_api_data`. -/
inductive ColCheck where
  | numeric (c : NumericCheck)
  | string (c : StringCheck)
deriving Repr, DecidableEq

/-- The `success` field of a per-column result. -/
def ColCheck.success : ColCheck → Bool
  | .numeric c => c.success
  | .string c => c.success

/-- The validation-result dictionary of `validate_api_data` (success flag and
`statistics` sub-dictionary). -/
structure ValidationResult where
  success : Bool
  evaluated_expectations : ℕ
  successful_expectations : ℕ
  unsuccessful_expectations : ℕ
  success_percent : ℚ
  results : List ColCheck
deriving Repr, DecidableEq

/-- Embedding of `DataQualityChecker.validate_api_data` (lines 50-98): per-column checks
for numeric and string columns, aggregate success as the logical AND over all
per-column results, and the statistics sub-dictionary. -/
def validate_api_data (columns : List Column) : ValidationResult :=
  let results : List ColCheck := columns.filterMap (fun col =>
    match col.data with
    | .numeric vals => some (.numeric (validate_numeric_column col.name vals))
    | .strings vals => some (.string (validate_string_column col.name vals))
    | .other => none)
  let all_passed := results.all (fun r => r.success)
  { success := all_passed
    evaluated_expectations := results.length
    successful_expectations := results.countP (fun r => r.success)
    unsuccessful_expectations := results.countP (fun r => !r.success)
    success_percent :=
      if results.isEmpty then 0
      else (results.countP (fun r => r.success) : ℚ) / (results.length : ℚ) * 100
    results := results }

/-- The per-column success condition exactly as claim C4 states it: zero
nulls, minimum ≥ 0 and maximum ≤ 1,000,000 — stated from the spec's words,
for comparison with the source's `validate_numeric_column`. -/
def numericCheckSpecC4 (vals : List (Option ℚ)) : Bool :=
  decide (colNullCount vals = 0) &&
  (match (vals.filterMap id).min? with
   | some m => decide (0 ≤ m)
   | none => false) &&
  (match (vals.filterMap id).max? with
   | some m => decide (m ≤ 1000000)
   | none => false)

/-- Counterexample to C4: the column name `"amount"` contains `'amount'`, so
the claim requires the max ≤ 1,000,000 check, but the source only applies it
to names containing `'revenue'`: the all-positive column `[2000001]` passes
the code's check while the claim says it must fail. -/
theorem numeric_check_amount_counterexample :
    strContains (pyToLower "amount") "amount" = true ∧
    (validate_numeric_column "amount" [some 2000001]).success = true ∧
    numericCheckSpecC4 [some 2000001] = false := by
  refine ⟨by decide, ?_, by decide⟩
  decide

/-- C4 (amended): for names containing `'revenue'` the check succeeds exactly
when there are zero nulls, the minimum is ≥ 0 and the maximum is ≤ 1,000,000;
for names containing `'amount'` but not `'revenue'`, exactly when there are
zero nulls and the minimum is ≥ 0 (no maximum check). -/
theorem numeric_check_classification (column : String) (vals : List (Option ℚ)) :
    (strContains (pyToLower column) "revenue" = true →
      ((validate_numeric_column column vals).success = true ↔
        colNullCount vals = 0 ∧
        (∃ m, (vals.filterMap id).min? = some m ∧ 0 ≤ m) ∧
        (∃ M, (vals.filterMap id).max? = some M ∧ M ≤ 1000000))) ∧
    (strContains (pyToLower column) "revenue" = false →
      strContains (pyToLower column) "amount" = true →
      ((validate_numeric_column column vals).success = true ↔
        colNullCount vals = 0 ∧
        (∃ m, (vals.filterMap id).min? = some m ∧ 0 ≤ m))) := by
  constructor
  · intro hrev
    simp only [validate_numeric_column, hrev, Bool.true_or, if_pos,
      Bool.and_eq_true, Bool.not_eq_true']
    constructor
    · rintro ⟨⟨hn, hm⟩, hM⟩
      refine ⟨by simpa using hn, ?_, ?_⟩
      · cases hmin : (vals.filterMap id).min? with
        | none => rw [hmin] at hm; simp at hm
        | some m => rw [hmin] at hm; exact ⟨m, rfl, by simpa using hm⟩
      · cases hmax : (vals.filterMap id).max? with
        | none => rw [hmax] at hM; simp at hM
        | some M => rw [hmax] at hM; exact ⟨M, rfl, by simpa using hM⟩
    · rintro ⟨hn, ⟨m, hmin, hm⟩, ⟨M, hmax, hM⟩⟩
      rw [hmin, hmax]
      refine ⟨⟨by simpa using hn, by simpa using hm⟩, by simpa using hM⟩
  · intro hrev hamt
    simp only [validate_numeric_column, hrev, hamt, Bool.false_or, if_pos,
      if_neg, Bool.false_eq_true, not_false_eq_true, Bool.and_true,
      Bool.and_eq_true, Bool.not_eq_true']
    constructor
    · rintro ⟨hn, hm⟩
      refine ⟨by simpa using hn, ?_⟩
      cases hmin : (vals.filterMap id).min? with
      | none => rw [hmin] at hm; simp at hm
      | some m => rw [hmin] at hm; exact ⟨m, rfl, by simpa using hm⟩
    · rintro ⟨hn, ⟨m, hmin, hm⟩⟩
      rw [hmin]
      exact ⟨by simpa using hn, by simpa using hm⟩

/-- Witness for C4 (amended): a `"revenue"` column with a negative minimum
fails; an `"amount"` column with a positive entry above 1,000,000 still
satisfies only the null and minimum conditions. -/
theorem numeric_check_classification_witness :
    ((validate_numeric_column "revenue" [some (-5)]).success = true ↔
      colNullCount ([some (-5)] : List (Option ℚ)) = 0 ∧
      (∃ m, (([some (-5)] : List (Option ℚ)).filterMap id).min? = some m ∧ 0 ≤ m) ∧
      (∃ M, (([some (-5)] : List (Option ℚ)).filterMap id).max? = some M ∧
        M ≤ 1000000)) ∧
    ((validate_numeric_column "amount" [some 3]).success = true ↔
      colNullCount ([some 3] : List (Option ℚ)) = 0 ∧
      (∃ m, (([some 3] : List (Option ℚ)).filterMap id).min? = some m ∧ 0 ≤ m)) :=
  ⟨(numeric_check_classification "revenue" [some (-5)]).1 (by decide),
   (numeric_check_classification "amount" [some 3]).2 (by decide) (by decide)⟩

/-- C10: when no column is numeric or string-typed (e.g. an empty record
list yields no columns at all), `validate_api_data` evaluates zero
expectations and reports vacuous success with `success_percent = 0`. -/
theorem validate_api_data_vacuous (columns : List Column)
    (h : ∀ c ∈ columns, (∀ vals, c.data ≠ ColumnData.numeric vals) ∧
      (∀ vals, c.data ≠ ColumnData.strings vals)) :
    (validate_api_data columns).success = true ∧
    (validate_api_data columns).evaluated_expectations = 0 ∧
    (validate_api_data columns).success_percent = 0 := by
  have hres : columns.filterMap (fun col =>
      match col.data with
      | .numeric vals => some (ColCheck.numeric (validate_numeric_column col.name vals))
      | .strings vals => some (ColCheck.string (validate_string_column col.name vals))
      | .other => none) = [] := by
    rw [List.filterMap_eq_nil_iff]
    intro c hc
    obtain ⟨hn, hs⟩ := h c hc
    cases hd : c.data with
    | numeric vals => exact absurd hd (hn vals)
    | strings vals => exact absurd hd (hs vals)
    | other => simp
  simp [validate_api_data, hres]

/-- Witness for C10: the empty record list yields no columns, hence vacuous
success with zero evaluated expectations. -/
theorem validate_api_data_vacuous_witness :
    (validate_api_data []).success = true ∧
    (validate_api_data []).evaluated_expectations = 0 ∧
    (validate_api_data []).success_percent = 0 :=
  validate_api_data_vacuous [] (by simp)

/-! ## JSON persistence helpers (`utils.py` lines 27-45)

`save_json_file` serializes with `json.dump` and `load_json_file` parses with
`json.load`. The Python value universe modelled here is `None`, `bool`, `int`,
`str`, `list` and `dict` (floats and tuples are outside the model); dictionary
keys may be strings or ints, both of which `json.dump` accepts — coercing an
int key `k` to the string `str(k)`, per the json library's documented
key-coercion. The file store maps a path to the JSON value whose textual form
`json.dump` wrote, i.e. exactly what `json.load` recovers from the file. -/

/-- A Python dictionary key: a string, or an int (which `json.dump` coerces
to its decimal string). -/
inductive PyKey where
  | str (s : String)
  | int (n : ℤ)
deriving Repr, DecidableEq

/-- A JSON-serializable Python value. -/
inductive PyValue where
  | none
  | bool (b : Bool)
  | int (n : ℤ)
  | str (s : String)
  | list (xs : List PyValue)
  | dict (kvs : List (PyKey × PyValue))
deriving Repr

/-- A JSON document value: object keys are always strings. -/
inductive JValue where
  | null
  | bool (b : Bool)
  | num (n : ℤ)
  | str (s : String)
  | arr (xs : List JValue)
  | obj (kvs : List (String × JValue))
deriving Repr

/-- Model of the `json.dump` key coercion: string keys kept, int keys rendered in
decimal. -/
def keyToString : PyKey → String
  | .str s => s
  | .int n => toString n

mutual
/-- The JSON value `json.dump(data, f)` writes for a Python value. -/
def dumpJson : PyValue → JValue
  | .none => .null
  | .bool b => .bool b
  | .int n => .num n
  | .str s => .str s
  | .list xs => .arr (dumpList xs)
  | .dict kvs => .obj (dumpDict kvs)

/-- Action of `json.dump` on a Python list's elements. -/
def dumpList : List PyValue → List JValue
  | [] => []
  | x :: xs => dumpJson x :: dumpList xs

/-- Action of `json.dump` on a Python dict's items, coercing keys to strings. -/
def dumpDict : List (PyKey × PyValue) → List (String × JValue)
  | [] => []
  | (k, v) :: kvs => (keyToString k, dumpJson v) :: dumpDict kvs
end

mutual
/-- The Python value `json.load` recovers from a JSON value: object keys are
always `str`. -/
def loadJson : JValue → PyValue
  | .null => .none
  | .bool b => .bool b
  | .num n => .int n
  | .str s => .str s
  | .arr xs => .list (loadList xs)
  | .obj kvs => .dict (loadDict kvs)

/-- Action of `json.load` on a JSON array's elements. -/
def loadList : List JValue → List PyValue
  | [] => []
  | x :: xs => loadJson x :: loadList xs

/-- Action of `json.load` on a JSON object's members. -/
def loadDict : List (String × JValue) → List (PyKey × PyValue)
  | [] => []
  | (k, v) :: kvs => (PyKey.str k, loadJson v) :: loadDict kvs
end

mutual
/-- Every dictionary key occurring in the value, at any nesting depth, is a
string. -/
def strKeysOnly : PyValue → Bool
  | .none => true
  | .bool _ => true
  | .int _ => true
  | .str _ => true
  | .list xs => strKeysOnlyList xs
  | .dict kvs => strKeysOnlyDict kvs

/-- Extension of `strKeysOnly` over a list's elements. -/
def strKeysOnlyList : List PyValue → Bool
  | [] => true
  | x :: xs => strKeysOnly x && strKeysOnlyList xs

/-- Extension of `strKeysOnly` over a dict's items. -/
def strKeysOnlyDict : List (PyKey × PyValue) → Bool
  | [] => true
  | (PyKey.str _, v) :: kvs => strKeysOnly v && strKeysOnlyDict kvs
  | (PyKey.int _, _) :: _ => false
end

/-- The file store: a path maps to the JSON value stored at it. -/
abbrev FileSystem := String → Option JValue

/-- Which paths are writable; `save_json_file` catches the exception from an
unwritable path and returns `False` without changing the store. -/
structure FsEnv where
  writable : String → Bool

/-- Embedding of `save_json_file` (utils.py lines 27-36): writes the serialized value and
returns `True`, or catches the write failure and returns `False`. -/
def save_json_file (data : PyValue) (filepath : String) (env : FsEnv)
    (fs : FileSystem) : Bool × FileSystem :=
  if env.writable filepath then
    (true, fun p => if p = filepath then some (dumpJson data) else fs p)
  else
    (false, fs)

/-- Embedding of `load_json_file` (utils.py lines 38-45): parses the stored file, or
catches the exception (missing/unreadable file) and returns `None`. -/
def load_json_file (filepath : String) (fs : FileSystem) : Option PyValue :=
  (fs filepath).map loadJson

mutual
/-- Round trip: `json.load` inverts `json.dump` on values whose dict keys are all
strings. -/
theorem load_dump : ∀ (v : PyValue), strKeysOnly v = true →
    loadJson (dumpJson v) = v
  | .none, _ => rfl
  | .bool _, _ => rfl
  | .int _, _ => rfl
  | .str _, _ => rfl
  | .list xs, h => by
      simp only [dumpJson, loadJson]
      rw [load_dump_list xs (by simpa [strKeysOnly] using h)]
  | .dict kvs, h => by
      simp only [dumpJson, loadJson]
      rw [load_dump_dict kvs (by simpa [strKeysOnly] using h)]

/-- Extension of `load_dump` over a list's elements. -/
theorem load_dump_list : ∀ (xs : List PyValue), strKeysOnlyList xs = true →
    loadList (dumpList xs) = xs
  | [], _ => rfl
  | x :: xs, h => by
      simp only [dumpList, loadList]
      rw [load_dump x (by simp [strKeysOnlyList] at h; exact h.1),
        load_dump_list xs (by simp [strKeysOnlyList] at h; exact h.2)]

/-- Extension of `load_dump` over a dict's items, given all keys are strings. -/
theorem load_dump_dict : ∀ (kvs : List (PyKey × PyValue)),
    strKeysOnlyDict kvs = true → loadDict (dumpDict kvs) = kvs
  | [], _ => rfl
  | (PyKey.str s, v) :: kvs, h => by
      simp only [dumpDict, keyToString, loadDict]
      rw [load_dump v (by simp [strKeysOnlyDict] at h; exact h.1),
        load_dump_dict kvs (by simp [strKeysOnlyDict] at h; exact h.2)]
  | (PyKey.int n, v) :: kvs, h => by
      exact absurd h (by simp [strKeysOnlyDict])
end

/-- Counterexample to C7: the dictionary `{1: 2}` is JSON-serializable, but
`json.dump` coerces its int key to the string `"1"`, so saving and loading
yields `{"1": 2}`, which is not equal to the original. -/
theorem json_roundtrip_counterexample :
    load_json_file "reports/meta.json"
      (save_json_file (PyValue.dict [(PyKey.int 1, PyValue.int 2)])
        "reports/meta.json" ⟨fun _ => true⟩ (fun _ => Option.none)).2 =
      some (PyValue.dict [(PyKey.str "1", PyValue.int 2)]) ∧
    PyValue.dict [(PyKey.str "1", PyValue.int 2)] ≠
      PyValue.dict [(PyKey.int 1, PyValue.int 2)] := by
  constructor
  · rfl
  · intro h
    simp only [PyValue.dict.injEq, List.cons.injEq, Prod.mk.injEq] at h
    exact PyKey.noConfusion h.1.1

/-- C7 (amended): saving a JSON-serializable dictionary all of whose keys (at
every nesting level) are strings to a writable path, then loading that path,
returns a structure equal to the original, and the save reports success. -/
theorem json_save_load_roundtrip (data : PyValue) (filepath : String)
    (env : FsEnv) (fs : FileSystem) (hw : env.writable filepath = true)
    (hk : strKeysOnly data = true) :
    (save_json_file data filepath env fs).1 = true ∧
    load_json_file filepath (save_json_file data filepath env fs).2 =
      some data := by
  constructor
  · simp [save_json_file, hw]
  · simp [save_json_file, hw, load_json_file, load_dump data hk]

/-- Witness for C7 (amended): a concrete string-keyed dictionary round-trips
through save and load on a concrete store. -/
theorem json_save_load_roundtrip_witness :
    (save_json_file
      (PyValue.dict [(PyKey.str "a", PyValue.int 1)]) "reports/meta.json"
      ⟨fun _ => true⟩ (fun _ => Option.none)).1 = true ∧
    load_json_file "reports/meta.json"
      (save_json_file
        (PyValue.dict [(PyKey.str "a", PyValue.int 1)]) "reports/meta.json"
        ⟨fun _ => true⟩ (fun _ => Option.none)).2 =
      some (PyValue.dict [(PyKey.str "a", PyValue.int 1)]) :=
  json_save_load_roundtrip
    (PyValue.dict [(PyKey.str "a", PyValue.int 1)]) "reports/meta.json"
    ⟨fun _ => true⟩ (fun _ => Option.none) rfl rfl

/-! ## Mock API client endpoints (`fastapi_mock_api.py` lines 31-147)

The module-level `SAMPLE_CLIENTS` list is the mutable state. `get_clients`
does `SAMPLE_CLIENTS.copy()` — a shallow copy sharing the client dicts — and
assigns `client["revenue"]` on the shared dicts, so the store is updated in
place; positional identity models object identity (the five sample dicts are
distinct objects). `get_client` jitters a per-call `client.copy()` only.
The random stream `random.uniform(-0.05, 0.05)` is modelled as a function
from the draw index to the drawn value. -/

/-- A client record of the mock API. -/
structure Client where
  client_id : ℤ
  client_name : String
  revenue : ℚ
  region : String
  active : Bool
  last_updated : String
deriving Repr, DecidableEq

/-- The module-level `SAMPLE_CLIENTS` list (lines 31-72). -/
def SAMPLE_CLIENTS : List Client :=
  [ { client_id := 1, client_name := "Client A", revenue := 150000.50
      region := "North", active := true
      last_updated := "2024-01-15T10:30:00Z" }
  , { client_id := 2, client_name := "Client B", revenue := 275000.75
      region := "South", active := true
      last_updated := "2024-01-14T14:20:00Z" }
  , { client_id := 3, client_name := "Client C", revenue := 89000.25
      region := "East", active := false
      last_updated := "2024-01-13T09:15:00Z" }
  , { client_id := 4, client_name := "Client D", revenue := 420000.00
      region := "West", active := true
      last_updated := "2024-01-16T16:45:00Z" }
  , { client_id := 5, client_name := "Client E", revenue := 195000.30
      region := "Central", active := true
      last_updated := "2024-01-12T11:30:00Z" } ]

/-- The revenue assignment `client["revenue"] =
round(client["revenue"] * (1 + variation), 2)`. -/
def jitterRevenue (variation : ℚ) (c : Client) : Client :=
  { c with revenue := pyRound2 (c.revenue * (1 + variation)) }

/-- The `for client in clients` loop of `get_clients` over the (possibly
filtered) shallow copy: returns the response list and the module store after
the loop. A record is in the copy iff `active_only` is off or it is active;
its dict — shared between copy and store — is mutated in place. -/
def getClientsLoop (vars : ℕ → ℚ) (i : ℕ) (active_only : Bool) :
    List Client → List Client × List Client
  | [] => ([], [])
  | c :: rest =>
    if !active_only || c.active then
      let c' := jitterRevenue (vars i) c
      let p := getClientsLoop vars (i + 1) active_only rest
      (c' :: p.1, c' :: p.2)
    else
      let p := getClientsLoop vars i active_only rest
      (p.1, c :: p.2)

/-- The response body of `GET /clients`. -/
structure ClientsResponse where
  data : List Client
  count : ℕ
  active_only : Bool
deriving Repr, DecidableEq

/-- Embedding of `GET /clients` (lines 98-122): returns the jittered client list and the
module-level store after the call. -/
def get_clients (vars : ℕ → ℚ) (active_only : Bool) (state : List Client) :
    ClientsResponse × List Client :=
  let p := getClientsLoop vars 0 active_only state
  ({ data := p.1, count := p.1.length, active_only := active_only }, p.2)

/-- Embedding of `GET /clients/{client_id}` (lines 124-147): jitters a per-call copy of
the found record; returns `none` for the 404 path. The module store is
returned unchanged by construction of the source (only `client_copy` is
assigned to). -/
def get_client (variation : ℚ) (client_id : ℤ) (state : List Client) :
    Option Client × List Client :=
  match state.find? (fun c => c.client_id == client_id) with
  | Option.none => (Option.none, state)
  | some c => (some (jitterRevenue variation c), state)

/-- With `active_only` off, the response list of the client loop is the
post-call store itself (the same mutated records). -/
theorem getClientsLoop_resp_eq_state (vars : ℕ → ℚ) (i : ℕ)
    (state : List Client) :
    (getClientsLoop vars i false state).1 = (getClientsLoop vars i false state).2 := by
  induction state generalizing i with
  | nil => rfl
  | cons c rest ih => simp [getClientsLoop, ih]

/-- With `active_only` off, the post-call store holds, at every index, the
jittered version of the record previously stored there. -/
theorem getClientsLoop_state_get (vars : ℕ → ℚ) (i : ℕ)
    (state : List Client) (j : ℕ) :
    (getClientsLoop vars i false state).2[j]? =
      (state[j]?).map (jitterRevenue (vars (i + j))) := by
  induction state generalizing i j with
  | nil => simp [getClientsLoop]
  | cons c rest ih =>
    cases j with
    | zero => simp [getClientsLoop]
    | succ j =>
      have harg : i + (j + 1) = (i + 1) + j := by omega
      rw [harg]
      simp only [getClientsLoop]
      rw [if_pos (by simp)]
      simp only [List.getElem?_cons_succ]
      exact ih (i + 1) j

/-- C9: `GET /clients` applies the revenue jitter to the shared
module-level records — the returned list is the post-call store, whose entry
at every index is the jittered version of the stored record, and a second
call compounds the jitter on the already-jittered stored values — whereas
`GET /clients/{client_id}` jitters only a per-call copy and returns the
store unchanged. -/
theorem mock_api_revenue_aliasing (vars vars2 : ℕ → ℚ) (state : List Client)
    (v : ℚ) (cid : ℤ) (j : ℕ) :
    (get_clients vars false state).1.data = (get_clients vars false state).2 ∧
    ((get_clients vars false state).2[j]?) =
      (state[j]?).map (jitterRevenue (vars j)) ∧
    ((get_clients vars2 false (get_clients vars false state).2).2[j]?) =
      (state[j]?).map
        (fun c => jitterRevenue (vars2 j) (jitterRevenue (vars j) c)) ∧
    (get_client v cid state).2 = state ∧
    (get_client v cid state).1 =
      (state.find? (fun c => c.client_id == cid)).map (jitterRevenue v) := by
  refine ⟨?_, ?_, ?_, ?_, ?_⟩
  · simpa [get_clients] using getClientsLoop_resp_eq_state vars 0 state
  · simpa [get_clients] using getClientsLoop_state_get vars 0 state j
  · have h1 := getClientsLoop_state_get vars 0 state j
    have h2 := getClientsLoop_state_get vars2 0
      (getClientsLoop vars 0 false state).2 j
    simp only [get_clients, Nat.zero_add] at h1 h2 ⊢
    rw [h2, h1, Option.map_map]
    rfl
  · cases h : state.find? (fun c => c.client_id == cid) with
    | none => simp [get_client, h]
    | some c => simp [get_client, h]
  · cases h : state.find? (fun c => c.client_id == cid) with
    | none => simp [get_client, h]
    | some c => simp [get_client, h]

end BddDemo
